import Mathlib

/-!
Verification of the andesOBIS derivation core (src/models.py, src/views.py).

The Python source is shallowly embedded: Django model classes become Lean
structures, model methods and the free-function builders become Lean
functions, and raised Python exceptions become values of an error type
carried in an Except result.  External collaborators (the great-circle
distance helper, the pytz timezone database, the shapely WKT serializer)
are passed in as explicit function parameters, mirroring their role as
out-of-scope collaborators.  Machine integers do not occur: the Python
source manipulates arbitrary-precision ints (modelled as Nat/Int) and
Decimal/float quantities (modelled as rationals).
-/

/-- Python exceptions that the embedded code can raise.  The source defines
InvalidSpecies / NoCatchData twice (once in models.py, once in views.py);
each raise site and each except clause refer to the classes of their own
module, and no cross-module catch occurs, so a single error type is a
faithful model.  attributeError models Python's built-in AttributeError
(attribute access on None), valueError models ValueError, runtimeError
models RuntimeError. -/
inductive PyErr where
  | valueError
  | attributeError
  | noParentCruiseError
  | invalidSpecies
  | noCatchData
  | runtimeError
  deriving Repr, DecidableEq

/-- Fragment of the Python value universe needed to talk about the
associatedMedia field: the None singleton and tuples of values (the
mutating initializer in models.py assigns a one-element tuple there). -/
inductive PyVal where
  | none
  | tuple (elems : List PyVal)
  deriving Repr

/-- Left-pads the decimal rendering of a natural number with zeros up to
the given width, as Python zero-padded formatting does. -/
def padZeros (width : Nat) (n : Nat) : String :=
  let s := toString n
  String.mk (List.replicate (width - s.length) '0') ++ s

/-- Proleptic-Gregorian civil date (year, month, day) of a day count
relative to 1970-01-01, the standard civil-from-days algorithm.  Supports
the wall-clock field decomposition that Python's datetime exposes to
strftime. -/
def civilFromDays (z0 : Int) : Int × Nat × Nat :=
  let z := z0 + 719468
  let era : Int := Int.ediv z 146097
  let doe : Nat := (z - era * 146097).toNat
  let yoe : Nat := (doe - doe / 1460 + doe / 36524 - doe / 146096) / 365
  let doy : Nat := doe - (365 * yoe + yoe / 4 - yoe / 100)
  let mp : Nat := (5 * doy + 2) / 153
  let d : Nat := doy - (153 * mp + 2) / 5 + 1
  let m : Nat := if mp < 10 then mp + 3 else mp - 9
  ((era * 400 + yoe) + (if m ≤ 2 then 1 else 0), m, d)

/-- Timezone-aware Python datetime: an absolute instant (microseconds
since the Unix epoch, UTC) together with the UTC offset (in minutes) of
the tzinfo currently attached to it.  All datetimes handled by the source
are timezone-aware (Django stores aware datetimes). -/
structure PyDateTime where
  micros : Int
  utcoffset_minutes : Int
  deriving Repr, DecidableEq

/-- Wall-clock microsecond count of the instant in its attached timezone. -/
def PyDateTime.localMicros (dt : PyDateTime) : Int :=
  dt.micros + dt.utcoffset_minutes * 60000000

/-- Microsecond field (0..999999) shown by strftime. -/
def PyDateTime.microsecondField (dt : PyDateTime) : Nat :=
  (Int.emod dt.localMicros 1000000).toNat

/-- Wall-clock whole seconds since the epoch. -/
def PyDateTime.localSeconds (dt : PyDateTime) : Int :=
  Int.ediv dt.localMicros 1000000

/-- Second count within the wall-clock day (0..86399). -/
def PyDateTime.secOfDay (dt : PyDateTime) : Nat :=
  (Int.emod dt.localSeconds 86400).toNat

/-- Wall-clock day count relative to 1970-01-01. -/
def PyDateTime.dayNumber (dt : PyDateTime) : Int :=
  Int.ediv dt.localSeconds 86400

/-- Hour field (0..23). -/
def PyDateTime.hourField (dt : PyDateTime) : Nat := dt.secOfDay / 3600

/-- Minute field (0..59). -/
def PyDateTime.minuteField (dt : PyDateTime) : Nat := dt.secOfDay % 3600 / 60

/-- Second field (0..59). -/
def PyDateTime.secondField (dt : PyDateTime) : Nat := dt.secOfDay % 60

/-- Year field of the civil date. -/
def PyDateTime.yearField (dt : PyDateTime) : Int := (civilFromDays dt.dayNumber).1

/-- Month field of the civil date (1..12). -/
def PyDateTime.monthField (dt : PyDateTime) : Nat := (civilFromDays dt.dayNumber).2.1

/-- Day-of-month field of the civil date (1..31). -/
def PyDateTime.dayField (dt : PyDateTime) : Nat := (civilFromDays dt.dayNumber).2.2

/-- Rendering of the year as strftime's zero-padded-to-4 directive does
(Python years are 1..9999; the negative case extends the model totally). -/
def PyDateTime.yearStr (dt : PyDateTime) : String :=
  if dt.yearField < 0 then "-" ++ padZeros 4 dt.yearField.natAbs
  else padZeros 4 dt.yearField.toNat

/-- Rendering of the UTC offset as strftime's offset directive does for an
aware datetime: a sign followed by two hour digits and two minute digits. -/
def PyDateTime.utcoffsetStr (dt : PyDateTime) : String :=
  (if dt.utcoffset_minutes < 0 then "-" else "+")
    ++ padZeros 2 (dt.utcoffset_minutes.natAbs / 60)
    ++ padZeros 2 (dt.utcoffset_minutes.natAbs % 60)

/-- Conversion of an aware datetime to another timezone, given the UTC
offset of the target zone: the absolute instant is unchanged, only the
attached offset (hence the wall-clock fields) changes.  Models Python's
astimezone. -/
def PyDateTime.astimezone (dt : PyDateTime) (offset_minutes : Int) : PyDateTime :=
  { micros := dt.micros, utcoffset_minutes := offset_minutes }

/-- Expansion of one strftime percent-directive on an aware datetime,
covering the directives used by the source format strings. -/
def strftimeDirective (dt : PyDateTime) : Char → String
  | 'Y' => dt.yearStr
  | 'm' => padZeros 2 dt.monthField
  | 'd' => padZeros 2 dt.dayField
  | 'H' => padZeros 2 dt.hourField
  | 'M' => padZeros 2 dt.minuteField
  | 'S' => padZeros 2 dt.secondField
  | 'f' => padZeros 6 dt.microsecondField
  | 'z' => dt.utcoffsetStr
  | c => "%" ++ String.singleton c

/-- Piecewise expansion of an strftime format character list. -/
def strftimePieces (dt : PyDateTime) : List Char → List String
  | [] => []
  | '%' :: c :: rest => strftimeDirective dt c :: strftimePieces dt rest
  | c :: rest => String.singleton c :: strftimePieces dt rest

/-- Python's datetime.strftime restricted to the directives the source
uses. -/
def strftime (dt : PyDateTime) (fmt : String) : String :=
  String.join (strftimePieces dt fmt.toList)

/-- External collaborators consumed by the derivation core, supplied by
the surrounding system: the great-circle distance helper (nautical
miles), the pytz timezone database (UTC offset in minutes of a named zone
at a given instant), and the shapely 3D line-string WKT serializer. -/
structure ExternalLibs where
  calc_nautical_dist : ℚ × ℚ → ℚ × ℚ → ℚ
  pytz_utcoffset_minutes : String → PyDateTime → Int
  shapely_linestring_wkt : ℚ × ℚ × ℚ → ℚ × ℚ × ℚ → String

/-- Shared prologue of obis_datetime_str / obis_time_str (models.py): if
the tz argument is truthy (a non-empty timezone name), convert the
datetime into that timezone via the pytz lookup, else leave it as is. -/
def dt_in_user_timezone (ext : ExternalLibs) (dt : PyDateTime)
    (tz : Option String) : PyDateTime :=
  match tz with
  | some s => if s = "" then dt else dt.astimezone (ext.pytz_utcoffset_minutes s dt)
  | none => dt

/-- Shallow embedding of OBISTable.obis_datetime_str (models.py lines
26-47): dispatch on the precision code to one of seven strftime format
strings, raising ValueError for any other code. -/
def obis_datetime_str (ext : ExternalLibs) (dt : PyDateTime) (precision : Nat)
    (tz : Option String) : Except PyErr String :=
  let dt_in := dt_in_user_timezone ext dt tz
  if precision = 1 then .ok (strftime dt_in "%Y")
  else if precision = 2 then .ok (strftime dt_in "%Y-%m")
  else if precision = 3 then .ok (strftime dt_in "%Y-%m-%d")
  else if precision = 4 then .ok (strftime dt_in "%Y-%m-%dT%H%z")
  else if precision = 5 then .ok (strftime dt_in "%Y-%m-%dT%H:%M%z")
  else if precision = 6 then .ok (strftime dt_in "%Y-%m-%dT%H:%M:%S%z")
  else if precision = 7 then .ok (strftime dt_in "%Y-%m-%dT%H:%M:%S.%f%z")
  else .error .valueError

/-- Shallow embedding of OBISTable.obis_time_str (models.py lines 49-64):
time-of-day rendering for precision codes 4-7, ValueError otherwise. -/
def obis_time_str (ext : ExternalLibs) (dt : PyDateTime) (precision : Nat)
    (tz : Option String) : Except PyErr String :=
  let dt_in := dt_in_user_timezone ext dt tz
  if precision = 4 then .ok (strftime dt_in "%H%z")
  else if precision = 5 then .ok (strftime dt_in "%H:%M%z")
  else if precision = 6 then .ok (strftime dt_in "%H:%M:%S%z")
  else if precision = 7 then .ok (strftime dt_in "%H:%M:%S.%f%z")
  else .error .valueError

/-- Rendering pattern the spec prescribes for each datetime precision
code (spec section 4.1): year only, year-month, year-month-day, then date
plus a time-of-day of increasing resolution with a UTC offset.  Written
from the spec text, to be compared against the source formatter. -/
def specDatetimeRender (dt : PyDateTime) : Nat → String
  | 1 => String.join [dt.yearStr]
  | 2 => String.join [dt.yearStr, "-", padZeros 2 dt.monthField]
  | 3 => String.join [dt.yearStr, "-", padZeros 2 dt.monthField, "-",
      padZeros 2 dt.dayField]
  | 4 => String.join [dt.yearStr, "-", padZeros 2 dt.monthField, "-",
      padZeros 2 dt.dayField, "T", padZeros 2 dt.hourField, dt.utcoffsetStr]
  | 5 => String.join [dt.yearStr, "-", padZeros 2 dt.monthField, "-",
      padZeros 2 dt.dayField, "T", padZeros 2 dt.hourField, ":",
      padZeros 2 dt.minuteField, dt.utcoffsetStr]
  | 6 => String.join [dt.yearStr, "-", padZeros 2 dt.monthField, "-",
      padZeros 2 dt.dayField, "T", padZeros 2 dt.hourField, ":",
      padZeros 2 dt.minuteField, ":", padZeros 2 dt.secondField, dt.utcoffsetStr]
  | 7 => String.join [dt.yearStr, "-", padZeros 2 dt.monthField, "-",
      padZeros 2 dt.dayField, "T", padZeros 2 dt.hourField, ":",
      padZeros 2 dt.minuteField, ":", padZeros 2 dt.secondField, ".",
      padZeros 6 dt.microsecondField, dt.utcoffsetStr]
  | _ => ""

/-- Species attached to a catch (ecosystem_survey collaborator contract). -/
structure Species where
  is_mixed_catch : Bool
  aphia_id : Option Nat
  scientific_name : String
  deriving Repr

/-- Basket grouping of specimens inside a catch; baskets nest. -/
inductive Basket where
  | mk (children : List Basket)
  deriving Repr

/-- Child baskets of a basket. -/
def Basket.children : Basket → List Basket
  | .mk c => c

/-- Catch record (ecosystem_survey collaborator contract): exactly the
attributes the derivation core reads. -/
structure Catch where
  id : Nat
  species : Species
  has_parent_baskets : Bool
  has_child_baskets : Bool
  extrapolated_specimen_count : Option Nat
  relative_abundance_category : Option String
  total_basket_weight : ℚ
  unmeasured_specimen_count : Nat
  specimens : List Nat
  catch_images : List Nat
  baskets : List Basket
  notes : Option String
  deriving Repr

/-- Operation attached to a fishing set, with its fishing flag. -/
structure Operation where
  is_fishing : Bool
  deriving Repr, DecidableEq

/-- Station a fishing set was performed at. -/
structure Station where
  name : String
  deriving Repr, DecidableEq

/-- Fishing set record (shared_models collaborator contract). -/
structure FishingSet where
  set_number : Nat
  start_date : Option PyDateTime
  end_date : Option PyDateTime
  start_latitude : ℚ
  start_longitude : ℚ
  start_depth_m : ℚ
  end_latitude : ℚ
  end_longitude : ℚ
  end_depth_m : ℚ
  remarks : Option String
  max_depth_m : Option ℚ
  min_depth_m : Option ℚ
  station : Station
  operations : List Operation
  deriving Repr

/-- Cruise record (shared_models collaborator contract). -/
structure Cruise where
  mission_number : String
  start_date : Option PyDateTime
  end_date : Option PyDateTime
  min_lat : ℚ
  max_lat : ℚ
  min_lng : ℚ
  max_lng : ℚ
  notes : Option String
  display_tz : String
  deriving Repr

/-- Source object an Event was derived from (the andes_object back
pointer on Event instances). -/
inductive AndesObject where
  | cruise (c : Cruise)
  | fishingSet (s : FishingSet)
  | catchRecord (c : Catch)
  deriving Repr

/-- Python truthiness of an optional numeric value: None and zero are
falsy. -/
def pyTruthy : Option ℚ → Bool
  | none => false
  | some x => decide (x ≠ 0)

/-- Translation of the conditional expression pattern value-if-truthy-
else-None that the set builders apply to the depth fields. -/
def truthyOrNone (x : Option ℚ) : Option ℚ :=
  match x with
  | some v => if v = 0 then none else some v
  | none => none

/-- Python's round applied to an integer result: round-half-to-even. -/
def roundHalfEven (x : ℚ) : ℤ :=
  let f := Int.floor x
  let frac := x - f
  if frac < 1 / 2 then f
  else if 1 / 2 < frac then f + 1
  else if f % 2 = 0 then f else f + 1

/-- Python's round with three decimal places, as used for the coordinate
uncertainty. -/
def pyRound3 (x : ℚ) : ℚ := (roundHalfEven (x * 1000) : ℚ) / 1000

/-- Stored columns and mutable attributes of the Event Django model
(models.py), with the Django field defaults.  The parent reference lives
on the Event wrapper below, since events chain. -/
structure EventFields where
  eventID : String := ""
  _event_start_dt : Option PyDateTime := none
  _event_start_dt_p : Nat := 6
  _event_end_dt : Option PyDateTime := none
  _event_end_dt_p : Nat := 6
  decimalLatitude : Option ℚ := none
  decimalLongitude : Option ℚ := none
  coordinatePrecision : Option ℚ := none
  coordinateUncertaintyInMeters : Option ℚ := none
  continent : Option String := none
  eventType : Option String := none
  maximumDepthInMeters : Option ℚ := none
  minimumDepthInMeters : Option ℚ := none
  language : Option String := none
  license : Option String := none
  rightsHolder : Option String := none
  institutionID : Option String := none
  institutionCode : Option String := none
  datasetName : Option String := none
  fieldNumber : Option String := none
  footprintWKT : Option String := none
  countryCode : Option String := none
  country : Option String := none
  eventRemarks : Option String := none
  andes_object : Option AndesObject := none
  deriving Repr

/-- Event model instance: its stored fields plus the parent Event
reference (the private parent foreign key, default None). -/
inductive Event where
  | mk (fields : EventFields) (_parentEvent : Option Event)
  deriving Repr

/-- Stored fields of an Event. -/
def Event.fields : Event → EventFields
  | .mk f _ => f

/-- Parent Event reference of an Event. -/
def Event.parentEvent : Event → Option Event
  | .mk _ p => p

/-- Primary key accessor. -/
def Event.eventID (e : Event) : String := e.fields.eventID

/-- Shallow embedding of the parentEventID property (models.py lines
96-105): the parent's id when a parent is linked, else None. -/
def Event.parentEventID (e : Event) : Option String :=
  e.parentEvent.map Event.eventID

/-- Shallow embedding of the timezone property (models.py lines 503-512):
an Event derived directly from a Cruise answers the cruise display
timezone; any other Event delegates to its parent.  On a parent chain
that ends at a null parent without meeting a cruise-rooted Event, the
Python attribute access on None raises AttributeError (the source's
except clause only intercepts RecursionError, which a finite null-
terminated chain never raises). -/
def Event.timezone : Event → Except PyErr String
  | .mk f p =>
    match f.andes_object with
    | some (.cruise c) => .ok c.display_tz
    | _ =>
      match p with
      | some pe => pe.timezone
      | none => .error .attributeError

/-- Whether the parent chain of an Event reaches an Event derived
directly from a Cruise (written from the spec's root-reachability
invariant, for comparison with the source timezone walk). -/
def Event.stemsFromCruise : Event → Bool
  | .mk f p =>
    match f.andes_object with
    | some (.cruise _) => true
    | _ =>
      match p with
      | some pe => pe.stemsFromCruise
      | none => false

/-- Shallow embedding of the geodeticDatum property (models.py lines
190-200): the EPSG code when either coordinate is truthy (present and
non-zero under Python truthiness), else None. -/
def Event.geodeticDatum (e : Event) : Option String :=
  if pyTruthy e.fields.decimalLongitude || pyTruthy e.fields.decimalLatitude then
    some "epsg:4326"
  else none

/-- Shallow embedding of the eventTime property (models.py lines
204-223): with both instants present, a start/end pair of time-of-day
strings; with only the start instant, a single string; otherwise None.
Each obis_time_str call receives the resolved timezone, whose resolution
is evaluated before the format dispatch (Python evaluates call arguments
first), so a timezone failure propagates ahead of a precision failure. -/
def Event.eventTime (ext : ExternalLibs) (e : Event) : Except PyErr (Option String) :=
  match e.fields._event_start_dt, e.fields._event_end_dt with
  | some sdt, some edt => do
    let tz1 ← e.timezone
    let s ← obis_time_str ext sdt e.fields._event_start_dt_p (some tz1)
    let tz2 ← e.timezone
    let en ← obis_time_str ext edt e.fields._event_end_dt_p (some tz2)
    .ok (some (s ++ "/" ++ en))
  | some sdt, none => do
    let tz1 ← e.timezone
    let s ← obis_time_str ext sdt e.fields._event_start_dt_p (some tz1)
    .ok (some s)
  | none, _ => .ok none

/-- Shallow embedding of Event._init_from_cruise (models.py lines
515-554), the mutating model initializer: the fields it assigns on a
fresh Event instance, starting from the Django defaults.  The isinstance
guard at its top is enforced by the Lean type of the argument. -/
def Event.init_from_cruise (ext : ExternalLibs) (cruise : Cruise) : EventFields :=
  { eventID := cruise.mission_number
    _event_start_dt := cruise.start_date
    _event_start_dt_p := 3
    _event_end_dt := cruise.end_date
    _event_end_dt_p := 3
    decimalLatitude := some (1 / 2 * (cruise.max_lat + cruise.min_lat))
    decimalLongitude := some (1 / 2 * (cruise.max_lng + cruise.min_lng))
    coordinateUncertaintyInMeters := some (pyRound3 (1852 * (1 / 2) *
      ext.calc_nautical_dist (cruise.max_lat, cruise.max_lng)
        (cruise.min_lat, cruise.min_lng)))
    fieldNumber := some cruise.mission_number
    eventRemarks := cruise.notes
    eventType := some "Project"
    continent := some "North America"
    language := some "En"
    coordinatePrecision := none
    license := some "http://creativecommons.org/licenses/by/4.0/legalcode"
    rightsHolder := some "His Majesty the King in right of Canada, as represented by the Minister of Fisheries and Oceans"
    institutionID := some "https://edmo.seadatanet.org/report/4160"
    institutionCode := some "IML"
    datasetName := none
    countryCode := some "CA"
    country := some "Canada"
    andes_object := some (.cruise cruise) }

/-- Shallow embedding of make_event_from_cruise (views.py lines 53-87),
the free-function builder variant: RuntimeError on a missing cruise, else
a parentless Event built by keyword construction.  Fields the keyword
construction does not mention keep the Django defaults; in particular the
andes_object back pointer stays None and no end instant is set. -/
def make_event_from_cruise (ext : ExternalLibs) (cruise : Option Cruise) :
    Except PyErr Event :=
  match cruise with
  | none => .error .runtimeError
  | some cruise =>
    .ok (Event.mk
      { eventID := cruise.mission_number
        _event_start_dt := cruise.start_date
        _event_start_dt_p := 3
        decimalLatitude := some (1 / 2 * (cruise.max_lat + cruise.min_lat))
        decimalLongitude := some (1 / 2 * (cruise.max_lng + cruise.min_lng))
        coordinateUncertaintyInMeters := some (pyRound3 (1852 * (1 / 2) *
          ext.calc_nautical_dist (cruise.max_lat, cruise.max_lng)
            (cruise.min_lat, cruise.min_lng)))
        continent := some "North America"
        eventType := some "Project"
        eventRemarks := cruise.notes }
      none)

/-- Shallow embedding of Event._init_from_fishing_set (models.py lines
556-603), the mutating model initializer: ValueError when the set has no
fishing-flagged operation; the eventID interpolation reads the eventID of
the already-linked parent Event, so a missing parent link is an
AttributeError.  The local WKT construction delegates to the shapely
serializer. -/
def Event.init_from_fishing_set (ext : ExternalLibs) (my_set : FishingSet)
    (parentEvent : Option Event) : Except PyErr EventFields :=
  if (my_set.operations.filter (fun o => o.is_fishing)).length = 0 then
    .error .valueError
  else
    match parentEvent with
    | none => .error .attributeError
    | some parent =>
      .ok { _event_start_dt := my_set.start_date
            _event_end_dt := my_set.end_date
            decimalLatitude := some (1 / 2 * (my_set.start_latitude + my_set.end_latitude))
            decimalLongitude := some (1 / 2 * (my_set.start_longitude + my_set.end_longitude))
            coordinateUncertaintyInMeters := some (pyRound3 (1852 * (1 / 2) *
              ext.calc_nautical_dist (my_set.start_latitude, my_set.start_longitude)
                (my_set.end_latitude, my_set.end_longitude)))
            eventRemarks := my_set.remarks
            eventID := parent.eventID ++ "-Set" ++ toString my_set.set_number
            maximumDepthInMeters := truthyOrNone my_set.max_depth_m
            minimumDepthInMeters := truthyOrNone my_set.min_depth_m
            footprintWKT := some (ext.shapely_linestring_wkt
              (my_set.start_longitude, my_set.start_latitude, my_set.start_depth_m)
              (my_set.end_longitude, my_set.end_latitude, my_set.end_depth_m))
            fieldNumber := some my_set.station.name
            eventType := some "SiteVisit"
            andes_object := some (.fishingSet my_set) }

/-- Shallow embedding of make_event_from_fishing_set (views.py lines
90-150), the free-function builder variant: RuntimeError on a missing
set, ValueError when the set has no fishing-flagged operation, else the
child Event built by keyword construction with the given parent linked.
The datetime precisions keep their Django default (second precision) and
the andes_object back pointer stays None. -/
def make_event_from_fishing_set (ext : ExternalLibs) (my_set : Option FishingSet)
    (parent : Event) : Except PyErr Event :=
  match my_set with
  | none => .error .runtimeError
  | some my_set =>
    if (my_set.operations.filter (fun o => o.is_fishing)).length = 0 then
      .error .valueError
    else
      .ok (Event.mk
        { eventID := parent.eventID ++ "-Set" ++ toString my_set.set_number
          eventType := some "SiteVisit"
          _event_start_dt := my_set.start_date
          _event_end_dt := my_set.end_date
          decimalLatitude := some (1 / 2 * (my_set.start_latitude + my_set.end_latitude))
          decimalLongitude := some (1 / 2 * (my_set.start_longitude + my_set.end_longitude))
          coordinateUncertaintyInMeters := some (pyRound3 (1852 * (1 / 2) *
            ext.calc_nautical_dist (my_set.start_latitude, my_set.start_longitude)
              (my_set.end_latitude, my_set.end_longitude)))
          maximumDepthInMeters := truthyOrNone my_set.max_depth_m
          minimumDepthInMeters := truthyOrNone my_set.min_depth_m
          footprintWKT := some (ext.shapely_linestring_wkt
            (my_set.start_longitude, my_set.start_latitude, my_set.start_depth_m)
            (my_set.end_longitude, my_set.end_latitude, my_set.end_depth_m))
          eventRemarks := my_set.remarks
          fieldNumber := some my_set.station.name }
        (some parent))

/-- Fields of the Occurrence Django model that the two catch builders
write, with the Django defaults.  The associatedMedia column is kept as a
Python value so the two builders' differing assignments stay visible. -/
structure Occurrence where
  occurenceID : String := ""
  verbatimIdentification : String := ""
  scientificName : String := ""
  scientificNameID : String := ""
  basisOfRecord : Option String := none
  occurrenceStatus : Option String := none
  occurrenceRemarks : Option String := none
  associatedMedia : PyVal := PyVal.none
  deriving Repr

/-- Meaningless-catch test, written identically in
Occurrence._init_from_catch (models.py lines 779-788) and
make_occurence_from_catch (views.py lines 204-213): the conjunction of
seven emptiness checks with the truthiness of the queryset of baskets
that themselves have children. -/
def meaningless_catch (c : Catch) : Bool :=
  (!c.has_child_baskets)
    && c.extrapolated_specimen_count.isNone
    && c.relative_abundance_category.isNone
    && decide (c.total_basket_weight = 0)
    && decide (c.unmeasured_specimen_count = 0)
    && decide (c.specimens.length = 0)
    && decide (c.catch_images.length = 0)
    && !(c.baskets.filter (fun b => !b.children.isEmpty)).isEmpty

/-- Shallow embedding of Occurrence._init_from_catch (models.py lines
737-807), the mutating model initializer: InvalidSpecies for a mixed
catch or a missing AphiaID, NoCatchData for a meaningless catch, else the
fields assigned on a fresh instance whose owning Event is already linked.
The final source line assigns the associatedMedia attribute with a
trailing comma, so the value stored is the one-element tuple containing
None, not None itself. -/
def Occurrence.init_from_catch (c : Catch) (event : Event) :
    Except PyErr Occurrence :=
  if c.species.is_mixed_catch then .error .invalidSpecies
  else
    match c.species.aphia_id with
    | none => .error .invalidSpecies
    | some aphia =>
      if meaningless_catch c then .error .noCatchData
      else
        .ok { occurenceID := event.eventID ++ "_" ++ toString c.id
              verbatimIdentification := c.species.scientific_name
              scientificName := c.species.scientific_name
              scientificNameID := "urn:lsid:marinespecies.org:taxname:" ++ toString aphia
              associatedMedia := PyVal.tuple [PyVal.none] }

/-- Shallow embedding of make_occurence_from_catch (views.py lines
160-240), the free-function builder variant: the same two validation
gates, then an Occurrence built by keyword construction whose identifier
uses the zero-padded (width 3) catch index. -/
def make_occurence_from_catch (c : Catch) (catch_idx : Nat) (event : Event) :
    Except PyErr Occurrence :=
  if c.species.is_mixed_catch then .error .invalidSpecies
  else
    match c.species.aphia_id with
    | none => .error .invalidSpecies
    | some aphia =>
      if meaningless_catch c then .error .noCatchData
      else
        .ok { occurenceID := event.eventID ++ "_" ++ padZeros 3 catch_idx
              verbatimIdentification := c.species.scientific_name
              scientificName := c.species.scientific_name
              scientificNameID := "urn:lsid:marinespecies.org:taxname:" ++ toString aphia
              basisOfRecord := some "HumanObservation"
              occurrenceStatus := some "Present"
              occurrenceRemarks := c.notes
              associatedMedia := PyVal.none }

/-- Inner catch loop of make_obis_events (views.py lines 39-50): the
enumerate counter advances over every catch; a mixed catch is skipped
without calling the builder; the builder call sits in a try block whose
only except clause names InvalidSpecies, so that failure is swallowed and
the loop continues, while any other raised error (in particular
NoCatchData) propagates and ends the run, discarding the loop's remaining
work. -/
def process_catches (event : Event) (catch_idx : Nat) :
    List Catch → Except PyErr (List Occurrence)
  | [] => .ok []
  | c :: rest =>
    if c.species.is_mixed_catch then process_catches event (catch_idx + 1) rest
    else
      match make_occurence_from_catch c catch_idx event with
      | .ok o => do
        let os ← process_catches event (catch_idx + 1) rest
        .ok (o :: os)
      | .error .invalidSpecies => process_catches event (catch_idx + 1) rest
      | .error e => .error e

/-- Outer set loop of make_obis_events (views.py lines 33-50): a set with
no fishing-flagged operation is skipped entirely; otherwise its child
Event is derived and its catches are processed.  The per-set inputs pair
each set with its catches (the two database filters of the source). -/
def process_sets (ext : ExternalLibs) (parent : Event) :
    List (FishingSet × List Catch) → Except PyErr (List Event × List Occurrence)
  | [] => .ok ([], [])
  | (s, catches) :: rest =>
    if (s.operations.filter (fun o => o.is_fishing)).length = 0 then
      process_sets ext parent rest
    else do
      let event ← make_event_from_fishing_set ext (some s) parent
      let occs ← process_catches event 0 catches
      let (events, more) ← process_sets ext parent rest
      .ok (event :: events, occs ++ more)

/-- Shallow embedding of the orchestration driver make_obis_events
(views.py lines 29-50): derive the root Event from the active cruise
(supplied by the external get_active_cruise collaborator), then walk the
sets and their catches.  The result collects the records persisted by a
completed run; an uncaught error ends the run. -/
def make_obis_events (ext : ExternalLibs) (active_cruise : Option Cruise)
    (sets : List (FishingSet × List Catch)) :
    Except PyErr (Event × List Event × List Occurrence) := do
  let parent ← make_event_from_cruise ext active_cruise
  let (events, occs) ← process_sets ext parent sets
  .ok (parent, events, occs)

/-- Concrete external collaborators for evaluating the embedding on
closed inputs. -/
def ext0 : ExternalLibs :=
  { calc_nautical_dist := fun _ _ => 2
    pytz_utcoffset_minutes := fun _ _ => -240
    shapely_linestring_wkt := fun _ _ => "LINESTRING Z (-64 44 10, -63 45 20)" }

/-- Valid species fixture. -/
def species_ok : Species :=
  { is_mixed_catch := false, aphia_id := some 104828, scientific_name := "Gadus morhua" }

/-- Catch fixture meeting every clause of the meaningless-catch rule:
all data fields empty or zero, and one basket that itself has a child. -/
def hollow_catch : Catch :=
  { id := 1, species := species_ok, has_parent_baskets := false,
    has_child_baskets := false, extrapolated_specimen_count := none,
    relative_abundance_category := none, total_basket_weight := 0,
    unmeasured_specimen_count := 0, specimens := [], catch_images := [],
    baskets := [Basket.mk [Basket.mk []]], notes := none }

/-- Catch fixture identical to the hollow one except for a non-zero
total basket weight. -/
def weighted_catch : Catch := { hollow_catch with id := 2, total_basket_weight := 5 }

/-- Catch fixture whose species has no AphiaID. -/
def aphialess_catch : Catch :=
  { weighted_catch with
    id := 3
    species := { is_mixed_catch := false
                 aphia_id := none
                 scientific_name := "Buccinum" } }

/-- Catch fixture flagged as a mixed catch. -/
def mixed_catch : Catch :=
  { weighted_catch with
    id := 4
    species := { is_mixed_catch := true
                 aphia_id := some 11707
                 scientific_name := "mixed catch" } }

/-- Cruise fixture. -/
def cruise0 : Cruise :=
  { mission_number := "2024001", start_date := some ⟨1700000000000000, -240⟩,
    end_date := none, min_lat := 44, max_lat := 45, min_lng := -64,
    max_lng := -63, notes := none, display_tz := "America/Halifax" }

/-- Fishing-set fixture with one fishing operation. -/
def set0 : FishingSet :=
  { set_number := 7, start_date := some ⟨1700000000000000, -240⟩,
    end_date := some ⟨1700007200000000, -240⟩, start_latitude := 44,
    start_longitude := -64, start_depth_m := 10, end_latitude := 45,
    end_longitude := -63, end_depth_m := 20, remarks := none,
    max_depth_m := some 20, min_depth_m := some 10,
    station := ⟨"Station A"⟩, operations := [⟨true⟩] }

/-- Root Event fixture obtained through the mutating cruise initializer,
so its timezone resolves. -/
def root_event0 : Event := Event.mk (Event.init_from_cruise ext0 cruise0) none

/-- Child Event fixture under the root, with a start instant at the
default second precision and no end instant. -/
def child_event0 : Event :=
  Event.mk { _event_start_dt := some ⟨1700000000000000, -240⟩ } (some root_event0)

/-- Event fixture with neither a cruise source nor a parent. -/
def orphan_event0 : Event := Event.mk { eventID := "orphan" } none

/-- Event fixture whose parent chain ends at the orphan without meeting
a cruise-rooted Event. -/
def orphan_child0 : Event := Event.mk { eventID := "orphan-child" } (some orphan_event0)

/-- Occurrence value with every field at its Django default. -/
def occ_default : Occurrence := {}

/-- Bind of an ok value in the Except monad, for rewriting do blocks. -/
theorem except_bind_ok {ε α β : Type} (a : α) (f : α → Except ε β) :
    ((.ok a : Except ε α) >>= f) = f a := rfl

/-- Bind of an error value in the Except monad, for rewriting do blocks. -/
theorem except_bind_error {ε α β : Type} (e : ε) (f : α → Except ε β) :
    ((.error e : Except ε α) >>= f) = .error e := rfl

/-- Conditions of the meaningless-catch rule as the spec states them: no
child basket groupings, no extrapolated specimen count, no relative-
abundance category, total basket weight exactly zero, unmeasured
specimen count exactly zero, zero specimens, zero catch images, and at
least one basket of the catch itself has children. -/
def hollow_catch_conditions (c : Catch) : Prop :=
  c.has_child_baskets = false ∧
  c.extrapolated_specimen_count = none ∧
  c.relative_abundance_category = none ∧
  c.total_basket_weight = 0 ∧
  c.unmeasured_specimen_count = 0 ∧
  c.specimens.length = 0 ∧
  c.catch_images.length = 0 ∧
  ∃ b ∈ c.baskets, b.children.isEmpty = false

instance (c : Catch) : Decidable (hollow_catch_conditions c) := by
  unfold hollow_catch_conditions
  exact inferInstance

/-- Emptiness of a filtered list is the absence of a member satisfying
the filter. -/
theorem filter_isEmpty_eq_false_iff {α : Type} (p : α → Bool) :
    ∀ l : List α, (l.filter p).isEmpty = false ↔ ∃ b ∈ l, p b = true
  | [] => by simp
  | a :: l => by
    by_cases h : p a
    · simp [List.filter_cons, h]
    · simp [List.filter_cons, h, filter_isEmpty_eq_false_iff p l]

/-- Boolean meaningless-catch test of the source agrees with the
meaningless-catch conditions as the spec states them. -/
theorem meaningless_catch_eq_true_iff (c : Catch) :
    meaningless_catch c = true ↔ hollow_catch_conditions c := by
  unfold meaningless_catch hollow_catch_conditions
  simp [Bool.and_eq_true, Option.isNone_iff_eq_none, Bool.not_eq_true',
    filter_isEmpty_eq_false_iff, and_assoc]

/-- C2: for a catch with a non-mixed species carrying an AphiaID,
occurrence derivation fails with the no-catch-data error exactly when all
of the meaningless-catch conditions hold simultaneously (no child basket
groupings, no extrapolated specimen count, no relative-abundance
category, zero total basket weight, zero unmeasured specimen count, zero
specimens, zero catch images, and some basket of the catch itself has
children); when any of those conditions fails, derivation succeeds and
produces an Occurrence. -/
theorem make_occurence_no_catch_data_iff (c : Catch) (catch_idx : Nat)
    (event : Event) (hmix : c.species.is_mixed_catch = false)
    (haph : c.species.aphia_id ≠ none) :
    (make_occurence_from_catch c catch_idx event = .error .noCatchData ↔
      hollow_catch_conditions c) ∧
    (¬ hollow_catch_conditions c →
      ∃ o, make_occurence_from_catch c catch_idx event = .ok o) := by
  obtain ⟨aphia, ha⟩ := Option.ne_none_iff_exists'.mp haph
  rw [← meaningless_catch_eq_true_iff]
  unfold make_occurence_from_catch
  by_cases hme : meaningless_catch c <;> simp [hmix, ha, hme]

/-- Witness for C2: the all-empty catch with a basket-with-children is
rejected with the no-catch-data error, and the same catch with a
non-zero weight yields an Occurrence. -/
theorem make_occurence_no_catch_data_iff_witness :
    make_occurence_from_catch hollow_catch 0 root_event0 = .error .noCatchData ∧
    ∃ o, make_occurence_from_catch weighted_catch 0 root_event0 = .ok o :=
  ⟨(make_occurence_no_catch_data_iff hollow_catch 0 root_event0 rfl
      (by decide)).1.mpr (by decide),
   (make_occurence_no_catch_data_iff weighted_catch 0 root_event0 rfl
      (by decide)).2 (by decide)⟩

/-- C6: occurrence derivation fails with the invalid-species error
exactly when the catch's species is a mixed catch or has no AphiaID; in
particular a mixed catch never yields an Occurrence. -/
theorem make_occurence_invalid_species_iff (c : Catch) (catch_idx : Nat)
    (event : Event) :
    (make_occurence_from_catch c catch_idx event = .error .invalidSpecies ↔
      (c.species.is_mixed_catch = true ∨ c.species.aphia_id = none)) ∧
    (c.species.is_mixed_catch = true →
      ∀ o, make_occurence_from_catch c catch_idx event ≠ .ok o) := by
  unfold make_occurence_from_catch
  by_cases hm : c.species.is_mixed_catch <;>
    rcases ha : c.species.aphia_id with _ | aphia <;>
      by_cases hme : meaningless_catch c <;> simp [hm, ha, hme]

/-- Witness for C6: the mixed-catch fixture is rejected with the
invalid-species error and yields no Occurrence. -/
theorem make_occurence_invalid_species_iff_witness :
    make_occurence_from_catch mixed_catch 0 root_event0 = .error .invalidSpecies ∧
    make_occurence_from_catch mixed_catch 0 root_event0 ≠ .ok occ_default :=
  ⟨(make_occurence_invalid_species_iff mixed_catch 0 root_event0).1.mpr (Or.inl rfl),
   (make_occurence_invalid_species_iff mixed_catch 0 root_event0).2 rfl occ_default⟩

/-- C9: on a catch that passes validation, the free-function builder
leaves associatedMedia as None, but the mutating model initializer stores
the one-element tuple containing None (its assignment carries a trailing
comma), which is not None.  The claim describes the evident intent (both
variants absent); the initializer diverges from it. -/
theorem associated_media_assignment_diverges :
    (make_occurence_from_catch weighted_catch 0 root_event0).map
        Occurrence.associatedMedia = .ok PyVal.none ∧
    (Occurrence.init_from_catch weighted_catch root_event0).map
        Occurrence.associatedMedia = .ok (PyVal.tuple [PyVal.none]) ∧
    PyVal.tuple [PyVal.none] ≠ PyVal.none := by
  refine ⟨rfl, rfl, ?_⟩
  intro h
  exact PyVal.noConfusion h

/-- C1 (amended): in the orchestration catch loop, an invalid-species
failure from occurrence derivation is caught (the catch is skipped and
the loop continues with the next catch), but a no-catch-data failure is
not caught: it propagates and ends the run. -/
theorem process_catches_error_handling (event : Event) (catch_idx : Nat)
    (c : Catch) (rest : List Catch) :
    (make_occurence_from_catch c catch_idx event = .error .invalidSpecies →
      process_catches event catch_idx (c :: rest) =
        process_catches event (catch_idx + 1) rest) ∧
    (make_occurence_from_catch c catch_idx event = .error .noCatchData →
      process_catches event catch_idx (c :: rest) = .error .noCatchData) := by
  constructor
  · intro h
    conv_lhs => rw [process_catches]
    by_cases hm : c.species.is_mixed_catch
    · simp [hm]
    · simp [hm, h]
  · intro h
    have hm : c.species.is_mixed_catch = false := by
      by_contra hmm
      rw [Bool.not_eq_false] at hmm
      unfold make_occurence_from_catch at h
      simp [hmm] at h
    conv_lhs => rw [process_catches]
    simp [hm, h]

/-- Witness for C1 (amended): an AphiaID-less catch is skipped and the
loop goes on; the hollow catch ends the loop with the uncaught
no-catch-data error. -/
theorem process_catches_error_handling_witness :
    process_catches root_event0 0 [aphialess_catch] =
      process_catches root_event0 1 [] ∧
    process_catches root_event0 0 [hollow_catch] = .error .noCatchData :=
  ⟨(process_catches_error_handling root_event0 0 aphialess_catch []).1 rfl,
   (process_catches_error_handling root_event0 0 hollow_catch []).2 rfl⟩

/-- Counterexample to C1 as stated: a run over one fishing set whose
first catch fails the meaningless-catch validation aborts with the
uncaught no-catch-data error instead of continuing with the next catch,
so a single bad catch does abort the run. -/
theorem make_obis_events_aborted_by_no_catch_data :
    make_obis_events ext0 (some cruise0) [(set0, [hollow_catch, weighted_catch])] =
      .error .noCatchData := rfl

/-- Timezone resolution on any Event whose parent chain never reaches a
cruise-rooted Event fails with AttributeError: the walk eventually reads
the timezone attribute of a null parent, and the source's except clause
only intercepts RecursionError. -/
theorem timezone_of_not_stems : ∀ e : Event, e.stemsFromCruise = false →
    e.timezone = .error .attributeError
  | .mk f none => by
    intro h
    rcases ha : f.andes_object with _ | obj
    · simp [Event.timezone, ha]
    · rcases obj with cr | s | ca
      · rw [Event.stemsFromCruise, ha] at h
        simp at h
      · simp [Event.timezone, ha]
      · simp [Event.timezone, ha]
  | .mk f (some pe) => by
    intro h
    rcases ha : f.andes_object with _ | obj
    · rw [Event.stemsFromCruise, ha] at h
      rw [Event.timezone, ha]
      exact timezone_of_not_stems pe h
    · rcases obj with cr | s | ca
      · rw [Event.stemsFromCruise, ha] at h
        simp at h
      · rw [Event.stemsFromCruise, ha] at h
        rw [Event.timezone, ha]
        exact timezone_of_not_stems pe h
      · rw [Event.stemsFromCruise, ha] at h
        rw [Event.timezone, ha]
        exact timezone_of_not_stems pe h

/-- C4 (amended): resolving the timezone of an Event whose parent chain
ends without reaching a cruise-rooted Event fails with AttributeError
(the attribute access on the null parent), not with the dedicated
NoParentCruiseError; the latter is reserved for the RecursionError
handler, which a finite null-terminated chain never triggers. -/
theorem timezone_broken_chain (e : Event) (h : e.stemsFromCruise = false) :
    e.timezone = .error .attributeError ∧
    e.timezone ≠ .error .noParentCruiseError := by
  have ht := timezone_of_not_stems e h
  refine ⟨ht, ?_⟩
  rw [ht]
  simp

/-- Witness for C4 (amended): the parentless non-cruise Event fails with
AttributeError. -/
theorem timezone_broken_chain_witness :
    Event.timezone orphan_event0 = .error .attributeError ∧
    Event.timezone orphan_event0 ≠ .error .noParentCruiseError :=
  timezone_broken_chain orphan_event0 rfl

/-- Counterexample to C4 as stated: a non-root Event whose chain ends at
a null parent without a cruise ancestor resolves its timezone to
AttributeError, which is not the dedicated NoParentCruiseError the claim
names. -/
theorem timezone_null_chain_is_attribute_error :
    orphan_child0.stemsFromCruise = false ∧
    Event.timezone orphan_child0 = .error .attributeError ∧
    Event.timezone orphan_child0 ≠ .error .noParentCruiseError := by
  refine ⟨rfl, rfl, ?_⟩
  intro hx
  have h2 : Event.timezone orphan_child0 = .error .attributeError := rfl
  rw [h2] at hx
  exact PyErr.noConfusion (Except.error.inj hx)

/-- The time-of-day formatter rejects every precision code outside 4-7
with ValueError. -/
theorem obis_time_str_out_of_range (ext : ExternalLibs) (dt : PyDateTime)
    (precision : Nat) (tz : Option String)
    (h : ¬(4 ≤ precision ∧ precision ≤ 7)) :
    obis_time_str ext dt precision tz = .error .valueError := by
  unfold obis_time_str
  split_ifs with h4 h5 h6 h7
  · exact absurd (by omega) h
  · exact absurd (by omega) h
  · exact absurd (by omega) h
  · exact absurd (by omega) h
  · rfl

/-- The time-of-day formatter yields a string for every precision code
in 4-7. -/
theorem obis_time_str_in_range (ext : ExternalLibs) (dt : PyDateTime)
    (precision : Nat) (tz : Option String) (h4 : 4 ≤ precision)
    (h7 : precision ≤ 7) :
    ∃ s, obis_time_str ext dt precision tz = .ok s := by
  interval_cases precision
  · exact ⟨_, rfl⟩
  · exact ⟨_, rfl⟩
  · exact ⟨_, rfl⟩
  · exact ⟨_, rfl⟩

/-- C3 (amended): on an Event whose timezone resolves, eventTime is
absent (None) exactly when the start instant is absent; with a start
instant present, a start precision code outside 4-7 (in particular the
year, month and day codes 1-3) makes eventTime fail with ValueError
rather than yield an absent time, and codes 4-7 yield a time-of-day
string. -/
theorem eventTime_precision_behaviour (ext : ExternalLibs) (e : Event)
    (tzs : String) (htz : e.timezone = .ok tzs) :
    (e.fields._event_start_dt = none → Event.eventTime ext e = .ok none) ∧
    (∀ sdt, e.fields._event_start_dt = some sdt →
      ¬(4 ≤ e.fields._event_start_dt_p ∧ e.fields._event_start_dt_p ≤ 7) →
      Event.eventTime ext e = .error .valueError) ∧
    (∀ sdt, e.fields._event_start_dt = some sdt →
      e.fields._event_end_dt = none →
      4 ≤ e.fields._event_start_dt_p → e.fields._event_start_dt_p ≤ 7 →
      ∃ s, Event.eventTime ext e = .ok (some s)) := by
  refine ⟨?_, ?_, ?_⟩
  · intro h
    unfold Event.eventTime
    rw [h]
  · intro sdt hs hp
    unfold Event.eventTime
    rcases he : e.fields._event_end_dt with _ | edt
    · rw [hs]
      simp only [htz, except_bind_ok,
        obis_time_str_out_of_range ext sdt _ _ hp, except_bind_error]
    · rw [hs]
      simp only [htz, except_bind_ok,
        obis_time_str_out_of_range ext sdt _ _ hp, except_bind_error]
  · intro sdt hs he h4 h7
    obtain ⟨s, hstr⟩ := obis_time_str_in_range ext sdt
      e.fields._event_start_dt_p (some tzs) h4 h7
    refine ⟨s, ?_⟩
    unfold Event.eventTime
    rw [hs, he]
    simp only [htz, except_bind_ok, hstr]

/-- Witness for C3 (amended): the cruise-rooted Event fixture carries a
start instant at day precision and its eventTime fails with ValueError;
the child Event fixture at the default second precision yields a
time-of-day string. -/
theorem eventTime_precision_behaviour_witness :
    Event.eventTime ext0 root_event0 = .error .valueError ∧
    ∃ s, Event.eventTime ext0 child_event0 = .ok (some s) := by
  constructor
  · exact (eventTime_precision_behaviour ext0 root_event0 "America/Halifax"
      rfl).2.1 _ rfl (by decide)
  · exact (eventTime_precision_behaviour ext0 child_event0 "America/Halifax"
      rfl).2.2 _ rfl rfl (by decide) (by decide)

/-- Counterexample to C3 as stated: the root Event fixture has its start
instant present at day precision (code 3), yet its eventTime is the
ValueError failure, not an absent time component. -/
theorem eventTime_day_precision_is_error :
    root_event0.fields._event_start_dt_p = 3 ∧
    root_event0.fields._event_start_dt = some ⟨1700000000000000, -240⟩ ∧
    Event.eventTime ext0 root_event0 = .error .valueError := ⟨rfl, rfl, rfl⟩

/-- C5: for every instant, timezone argument and precision code, the
datetime formatter yields exactly the spec's rendering pattern for the
codes 1-7 (year only, year-month, year-month-day, then date plus a time
of increasing resolution with the UTC offset) and fails with ValueError
for every code outside 1-7. -/
theorem obis_datetime_str_matches_spec (ext : ExternalLibs) (dt : PyDateTime)
    (tz : Option String) (precision : Nat) :
    obis_datetime_str ext dt precision tz =
      if 1 ≤ precision ∧ precision ≤ 7 then
        .ok (specDatetimeRender (dt_in_user_timezone ext dt tz) precision)
      else .error .valueError := by
  unfold obis_datetime_str
  split_ifs with h1 h2 h3 h4 h5 h6 h7 <;>
    first
      | (subst_vars; rfl)
      | omega

/-- C7: in both builder variants, the root Event derived from a cruise
has the cruise mission number as its eventID, and the child Event
derived from a fishing set with set number N under a parent has the
parent's eventID followed by the set suffix as its eventID. -/
theorem event_id_scheme (ext : ExternalLibs) (cruise : Cruise)
    (my_set : FishingSet) (parent : Event)
    (hops : (my_set.operations.filter (fun o => o.is_fishing)).length ≠ 0) :
    (make_event_from_cruise ext (some cruise)).map Event.eventID =
      .ok cruise.mission_number ∧
    (Event.init_from_cruise ext cruise).eventID = cruise.mission_number ∧
    (make_event_from_fishing_set ext (some my_set) parent).map Event.eventID =
      .ok (parent.eventID ++ "-Set" ++ toString my_set.set_number) ∧
    (Event.init_from_fishing_set ext my_set (some parent)).map
        EventFields.eventID =
      .ok (parent.eventID ++ "-Set" ++ toString my_set.set_number) := by
  refine ⟨rfl, rfl, ?_, ?_⟩
  · simp only [make_event_from_fishing_set]
    rw [if_neg hops]
    rfl
  · unfold Event.init_from_fishing_set
    rw [if_neg hops]
    rfl

/-- Witness for C7: the cruise and set fixtures produce the identifiers
2024001 and 2024001-Set7. -/
theorem event_id_scheme_witness :
    (make_event_from_cruise ext0 (some cruise0)).map Event.eventID =
      .ok cruise0.mission_number ∧
    (Event.init_from_cruise ext0 cruise0).eventID = cruise0.mission_number ∧
    (make_event_from_fishing_set ext0 (some set0) root_event0).map Event.eventID =
      .ok (root_event0.eventID ++ "-Set" ++ toString set0.set_number) ∧
    (Event.init_from_fishing_set ext0 set0 (some root_event0)).map
        EventFields.eventID =
      .ok (root_event0.eventID ++ "-Set" ++ toString set0.set_number) :=
  event_id_scheme ext0 cruise0 set0 root_event0 (by decide)

/-- C8: in both builder variants, the root Event derived from a cruise
has the arithmetic midpoints of the bounding-box corners as its
coordinates, and its coordinate uncertainty is half the externally
supplied great-circle distance between the two corners converted at 1852
meters per nautical mile, rounded to three decimal places. -/
theorem root_event_spatial (ext : ExternalLibs) (cruise : Cruise) :
    ((Event.init_from_cruise ext cruise).decimalLatitude =
        some (1 / 2 * (cruise.max_lat + cruise.min_lat)) ∧
      (Event.init_from_cruise ext cruise).decimalLongitude =
        some (1 / 2 * (cruise.max_lng + cruise.min_lng)) ∧
      (Event.init_from_cruise ext cruise).coordinateUncertaintyInMeters =
        some (pyRound3 (1852 * (1 / 2) *
          ext.calc_nautical_dist (cruise.max_lat, cruise.max_lng)
            (cruise.min_lat, cruise.min_lng)))) ∧
    ((make_event_from_cruise ext (some cruise)).map (fun e =>
        (e.fields.decimalLatitude, e.fields.decimalLongitude,
          e.fields.coordinateUncertaintyInMeters)) =
      .ok (some (1 / 2 * (cruise.max_lat + cruise.min_lat)),
        some (1 / 2 * (cruise.max_lng + cruise.min_lng)),
        some (pyRound3 (1852 * (1 / 2) *
          ext.calc_nautical_dist (cruise.max_lat, cruise.max_lng)
            (cruise.min_lat, cruise.min_lng))))) :=
  ⟨⟨rfl, rfl, rfl⟩, rfl⟩

/-- Truthiness of an optional coordinate is its presence with a non-zero
value. -/
theorem pyTruthy_eq_true_iff (x : Option ℚ) :
    pyTruthy x = true ↔ ∃ v, x = some v ∧ v ≠ 0 := by
  rcases x with _ | v <;> simp [pyTruthy]

/-- C10: an Event's geodeticDatum is the EPSG code exactly when its
latitude or its longitude is present with a non-zero value, and None
otherwise; in particular both coordinates present but exactly zero give
None. -/
theorem geodetic_datum_characterization (e : Event) :
    (e.geodeticDatum = some "epsg:4326" ↔
      ((∃ v, e.fields.decimalLatitude = some v ∧ v ≠ 0) ∨
       (∃ v, e.fields.decimalLongitude = some v ∧ v ≠ 0))) ∧
    (¬((∃ v, e.fields.decimalLatitude = some v ∧ v ≠ 0) ∨
       (∃ v, e.fields.decimalLongitude = some v ∧ v ≠ 0)) →
      e.geodeticDatum = none) ∧
    (e.fields.decimalLatitude = some 0 → e.fields.decimalLongitude = some 0 →
      e.geodeticDatum = none) := by
  have hkey : (pyTruthy e.fields.decimalLongitude ||
      pyTruthy e.fields.decimalLatitude) = true ↔
      ((∃ v, e.fields.decimalLatitude = some v ∧ v ≠ 0) ∨
       (∃ v, e.fields.decimalLongitude = some v ∧ v ≠ 0)) := by
    rw [Bool.or_eq_true, pyTruthy_eq_true_iff, pyTruthy_eq_true_iff]
    exact or_comm
  unfold Event.geodeticDatum
  refine ⟨?_, ?_, ?_⟩
  · by_cases hb : (pyTruthy e.fields.decimalLongitude ||
        pyTruthy e.fields.decimalLatitude) = true
    · rw [if_pos hb]
      exact iff_of_true rfl (hkey.mp hb)
    · rw [if_neg hb]
      exact iff_of_false (by simp) (fun hc => hb (hkey.mpr hc))
  · intro hn
    rw [if_neg (fun hb => hn (hkey.mp hb))]
  · intro h1 h2
    rw [if_neg ?_]
    intro hb
    rcases hkey.mp hb with ⟨v, hv, hvne⟩ | ⟨v, hv, hvne⟩
    · rw [h1] at hv
      exact hvne (Option.some.inj hv).symm
    · rw [h2] at hv
      exact hvne (Option.some.inj hv).symm

/-- Event fixture at the equator / prime meridian intersection: both
coordinates present and exactly zero. -/
def origin_event0 : Event :=
  Event.mk { decimalLatitude := some 0, decimalLongitude := some 0 } none

/-- Witness for C10: the origin Event has both coordinates present but
its geodeticDatum is None. -/
theorem geodetic_datum_characterization_witness :
    Event.geodeticDatum origin_event0 = none :=
  (geodetic_datum_characterization origin_event0).2.2 rfl rfl
